import Mathlib

/-!
Verification of the quiz-app question-model and grading engine
(shallow embedding of `src/app.py`).

Python strings are modelled as Lean `String`; Python `float` values are
modelled as `Rat` (all scores at stake are exact small rationals);
Python exceptions are modelled with `Except String`.  The Python string
methods used by the program (`strip`, `lower`, `split`, `replace`,
`isdigit`) are embedded as executable functions on the character list of
a `String`, so the kernel can evaluate them on concrete inputs.
-/

namespace QuizApp

/-- `str.lower()`: ASCII lowercasing of every character (the program's
data is ASCII apart from column headers, which are never lowercased). -/
def pyLower (s : String) : String := ⟨s.data.map Char.toLower⟩

/-- `str.strip()`: remove leading and trailing whitespace. -/
def pyStrip (s : String) : String :=
  ⟨((s.data.dropWhile Char.isWhitespace).reverse.dropWhile
      Char.isWhitespace).reverse⟩

/-- Helper for `pySplit`: split a character list on a separator
character; like Python `str.split(sep)`, the empty input yields `[[]]`
and separators at the ends yield empty segments. -/
def splitOnChar (sep : Char) : List Char → List (List Char)
  | [] => [[]]
  | c :: cs =>
    let r := splitOnChar sep cs
    if c = sep then [] :: r
    else
      match r with
      | [] => [[c]]
      | h :: t => (c :: h) :: t

/-- `s.split(sep)` for a one-character separator (the program only
splits on `"|"` and `";"`). -/
def pySplit (s : String) (sep : Char) : List String :=
  (splitOnChar sep s.data).map (fun l => ⟨l⟩)

/-- `s.replace(t, "")` for a one-character `t` (the program only uses
`corr.replace(";", "")`). -/
def removeChar (s : String) (sep : Char) : String :=
  ⟨s.data.filter (fun c => c ≠ sep)⟩

/-- `s.isdigit()` over ASCII digits: `True` iff `s` is non-empty and
every character is a digit (`"".isdigit()` is `False` in Python). -/
def pyIsDigit (s : String) : Bool := s ≠ "" && s.data.all Char.isDigit

/-- Numeric value of an all-digit string, as `int(s)` computes it
(only applied to non-empty all-digit segments in the program). -/
def digitsToNat (s : String) : Nat :=
  s.data.foldl (fun n c => n * 10 + (c.toNat - 48)) 0

/-- `float(s)` on a string, modelled for plain decimal notation
(optional sign, integer part, optional fractional part); `none` models
the `ValueError` Python raises on an unparseable string.  Exponent,
`inf` and `nan` notations are outside the model. -/
def pyFloat (s : String) : Option Rat :=
  let t := (pyStrip s).data
  let sc : Rat × List Char :=
    match t with
    | '-' :: rest => (-1, rest)
    | '+' :: rest => (1, rest)
    | _ => (1, t)
  match splitOnChar '.' sc.2 with
  | [intPart] =>
    if intPart ≠ [] ∧ intPart.all Char.isDigit then
      some (sc.1 * (digitsToNat ⟨intPart⟩ : Rat))
    else none
  | [intPart, fracPart] =>
    if (intPart.all Char.isDigit ∧ fracPart.all Char.isDigit) ∧
        (intPart ≠ [] ∨ fracPart ≠ []) then
      some (sc.1 * ((digitsToNat ⟨intPart⟩ : Rat) +
        (digitsToNat ⟨fracPart⟩ : Rat) / (10 : Rat) ^ fracPart.length))
    else none
  | _ => none

/-- The set `u` built by `mc_grader` (app.py line 38):
`{a.strip().lower() for a in ans.split("|") if a}` — the filter `if a`
tests the raw segment, before stripping. -/
def userSet (ans : String) : Finset String :=
  (((pySplit ans '|').filter (fun a => a ≠ "")).map
    (fun a => pyLower (pyStrip a))).toFinset

/-- The set `c` built by `mc_grader` (app.py line 39):
`{c.strip().lower() for c in corr}`. -/
def corrSet (corr : List String) : Finset String :=
  (corr.map (fun x => pyLower (pyStrip x))).toFinset

/-- `mc_grader(ans, corr)` from app.py lines 34–44. -/
def mc_grader (ans : String) (corr : List String) : Rat :=
  if ans = "" then 0
  else
    let u := userSet ans
    let c := corrSet corr
    if u \ c ≠ ∅ then 0
    else if c ≠ ∅ then (u.card : Rat) / (c.card : Rat) else 0

/-- `open_grader(ans, corr)` from app.py lines 46–47:
`float(ans.strip().lower() == str(corr).strip().lower())`. -/
def open_grader (ans : String) (corr : String) : Rat :=
  if pyLower (pyStrip ans) = pyLower (pyStrip corr) then 1 else 0

/-- Payload of the `correct` field of the `Question` dataclass
(`Sequence[str] | str` in app.py): a list of labels for
multiple-choice questions, a single reference string for open ones. -/
inductive Correct
  | strs (l : List String)
  | str (s : String)
  deriving DecidableEq

/-- The `Question` dataclass from app.py lines 26–32.  `options` is
`Optional`: `none` models Python `None` (open questions). -/
structure Question where
  prompt : String
  qtype : String
  correct : Correct
  options : Option (List String)
  weight : Rat
  deriving DecidableEq

/-- A DataFrame row as the parser sees it: an association from column
name to the cell rendered by `str(...)`.  A missing key models a column
absent from the frame. -/
abbrev Row := List (String × String)

/-- `str(row[c])` for a column known to be present; the `""` default is
never exercised by the program (required columns are checked first). -/
def getCell (row : Row) (c : String) : String := (row.lookup c).getD ""

/-- `opts = [o.strip() for o in str(row["Antwortmöglichkeiten"]).split(";") if o.strip()]`
(app.py line 60). -/
def parseOptions (optsField : String) : List String :=
  ((pySplit optsField ';').map pyStrip).filter (fun o => o ≠ "")

/-- Resolution of `CorrectAnswers` for a multiple-choice row
(app.py lines 61–65): `corr` is the stripped field, `rawCorr` the raw
field (the literal branch re-reads the raw field). -/
def resolveCorrect (corr : String) (rawCorr : String)
    (opts : List String) : List String :=
  if pyIsDigit (removeChar corr ';') then
    let idx := ((pySplit corr ';').filter (fun i => i ≠ "")).map
      (fun i => (digitsToNat i : Int) - 1)
    (idx.filter (fun i => 0 ≤ i ∧ i < (opts.length : Int))).filterMap
      (fun i => opts.get? i.toNat)
  else
    ((pySplit rawCorr ';').map pyStrip).filter (fun c => c ≠ "")

/-- One iteration of the row loop of `_df_to_questions`
(app.py lines 54–68); the `Except.error` is the `ValueError` that
`float(row.get("Gewicht", 1.0))` raises on an unparseable weight. -/
def parseRow (row : Row) : Except String Question :=
  let qtype := pyLower (pyStrip (getCell row "Typ"))
  let prompt := pyStrip (getCell row "Frage")
  match (match row.lookup "Gewicht" with
         | none => some (1 : Rat)
         | some s => pyFloat s) with
  | none => Except.error "could not convert string to float"
  | some weight =>
    let corr := pyStrip (getCell row "Richtige Antworten")
    if qtype = "mc" then
      let opts := parseOptions (getCell row "Antwortmöglichkeiten")
      Except.ok ⟨prompt, "mc",
        Correct.strs (resolveCorrect corr (getCell row "Richtige Antworten") opts),
        some opts, weight⟩
    else
      Except.ok ⟨prompt, "open", Correct.str corr, none, weight⟩

/-- `_df_to_questions` (app.py lines 52–69): rows in input order; a
raised `ValueError` aborts the whole loop, discarding the accumulator. -/
def dfToQuestions : List Row → Except String (List Question)
  | [] => Except.ok []
  | r :: rs =>
    match parseRow r with
    | Except.error e => Except.error e
    | Except.ok q =>
      match dfToQuestions rs with
      | Except.error e => Except.error e
      | Except.ok qs => Except.ok (q :: qs)

instance exceptDecEq {ε α : Type} [DecidableEq ε] [DecidableEq α] :
    DecidableEq (Except ε α) := fun a b =>
  match a, b with
  | Except.error e, Except.error e' => decidable_of_iff (e = e') (by simp)
  | Except.error _, Except.ok _ => isFalse (by simp)
  | Except.ok _, Except.error _ => isFalse (by simp)
  | Except.ok x, Except.ok y => decidable_of_iff (x = y) (by simp)

/-- The tabular input of `load_questions` after pandas has read the
file: column names plus rows. -/
structure DataFrame where
  columns : List String
  rows : List Row

/-- The required-column set of app.py line 84 (as a list; the Python
set's iteration order when joining the message is unspecified, a fixed
order is chosen here). -/
def requiredCols : List String :=
  ["Frage", "Typ", "Antwortmöglichkeiten", "Richtige Antworten"]

/-- `load_questions` (app.py lines 82–89) from the point where the
frame is in memory: strip the column names, fail on missing required
columns (`ValueError("Fehlende Spalten: ...")`), else parse the rows. -/
def load_questions (df : DataFrame) : Except String (List Question) :=
  let cols := df.columns.map pyStrip
  let missing := requiredCols.filter (fun c => ¬ c ∈ cols)
  if missing ≠ [] then
    Except.error ("Fehlende Spalten: " ++ String.intercalate ", " missing)
  else dfToQuestions df.rows

/-- Python iteration over `q.correct` when it holds a plain string
(never produced by the parser for `"mc"` rows): the characters. -/
def correctAsSeq : Correct → List String
  | Correct.strs l => l
  | Correct.str s => s.data.map (fun c => String.mk [c])

/-- `str(q.correct)` when it holds a list (never produced by the parser
for `"open"` rows): the Python list repr. -/
def correctAsStr : Correct → String
  | Correct.strs l =>
      "[" ++ String.intercalate ", " (l.map (fun s => "'" ++ s ++ "'")) ++ "]"
  | Correct.str s => s

/-- The per-question branch of the `scores` dict comprehension
(app.py lines 156–159), without the weight factor. -/
def grade1 (q : Question) (ans : String) : Rat :=
  if q.qtype = "mc" then mc_grader ans (correctAsSeq q.correct)
  else open_grader ans (correctAsStr q.correct)

/-- `d[k] = v` on a Python dict modelled as an association list in
insertion order: overwriting keeps the original position. -/
def dictInsert (d : List (String × Rat)) (k : String) (v : Rat) :
    List (String × Rat) :=
  if d.any (fun p => p.1 = k) then
    d.map (fun p => if p.1 = k then (k, v) else p)
  else d ++ [(k, v)]

/-- The `scores` dict comprehension (app.py lines 156–159):
`{q.prompt: q.weight * grade(...) for q in questions}`. -/
def scoresDict (questions : List Question) (answers : String → String) :
    List (String × Rat) :=
  questions.foldl
    (fun d q => dictInsert d q.prompt (q.weight * grade1 q (answers q.prompt)))
    []

/-- `sum(scores.values())` (app.py line 101). -/
def totalScore (questions : List Question) (answers : String → String) : Rat :=
  ((scoresDict questions answers).map Prod.snd).sum

/-- Spec-side rendition of the index branch, following the spec's words:
read the field as a `;`-delimited list of 1-based indices, silently
discard indices outside `[1, len(options)]`, resolve the rest to the
corresponding option labels.  Compared against `resolveCorrect`. -/
def resolveIndicesSpec (corr : String) (opts : List String) : List String :=
  ((((pySplit corr ';').filter (fun i => i ≠ "")).map digitsToNat).filter
      (fun n => 1 ≤ n ∧ n ≤ opts.length)).filterMap (fun n => opts.get? (n - 1))

/-- Spec-side rendition of the literal branch, following the spec's
words: a `;`-delimited list of literal labels, trimmed, empties
dropped, not validated against the options. -/
def resolveLiteralSpec (rawCorr : String) : List String :=
  ((pySplit rawCorr ';').map pyStrip).filter (fun c => c ≠ "")

end QuizApp

namespace QuizApp

lemma userSet_empty : userSet "" = ∅ := by decide

lemma mc_grader_empty_ans (corr : List String) : mc_grader "" corr = 0 := rfl

lemma mc_grader_wrong (ans : String) (corr : List String)
    (h : ¬ userSet ans ⊆ corrSet corr) : mc_grader ans corr = 0 := by
  have hans : ans ≠ "" := by
    rintro rfl
    exact h (userSet_empty ▸ Finset.empty_subset _)
  unfold mc_grader
  rw [if_neg hans]
  dsimp only
  rw [if_pos fun he => h (Finset.sdiff_eq_empty_iff_subset.mp he)]

lemma mc_grader_sub (ans : String) (corr : List String) (h0 : ans ≠ "")
    (hsub : userSet ans ⊆ corrSet corr) (hne : corrSet corr ≠ ∅) :
    mc_grader ans corr
      = ((userSet ans).card : Rat) / ((corrSet corr).card : Rat) := by
  unfold mc_grader
  rw [if_neg h0]
  dsimp only
  rw [if_neg (not_ne_iff.mpr (Finset.sdiff_eq_empty_iff_subset.mpr hsub)),
      if_pos hne]

lemma mc_grader_cempty (ans : String) (corr : List String)
    (h : corrSet corr = ∅) : mc_grader ans corr = 0 := by
  by_cases h0 : ans = ""
  · subst h0; rfl
  unfold mc_grader
  rw [if_neg h0]
  dsimp only
  by_cases hdif : userSet ans \ corrSet corr ≠ ∅
  · rw [if_pos hdif]
  · rw [if_neg hdif, if_neg (not_ne_iff.mpr h)]

lemma mc_grader_half : mc_grader "A" ["A", "B"] = 1/2 := by
  show ((userSet "A").card : Rat) / ((corrSet ["A", "B"]).card : Rat) = 1/2
  rw [show (userSet "A").card = 1 from by decide,
      show (corrSet ["A", "B"]).card = 2 from by decide]
  norm_num

lemma mc_grader_full : mc_grader "A|B" ["A", "B"] = 1 := by
  show ((userSet "A|B").card : Rat) / ((corrSet ["A", "B"]).card : Rat) = 1
  rw [show (userSet "A|B").card = 2 from by decide,
      show (corrSet ["A", "B"]).card = 2 from by decide]
  norm_num

/-- C1: for a multiple-choice question, an empty raw answer scores 0; a
selection containing an element outside the correct set scores 0; a
selection inside a non-empty correct set scores `|U| / |C|`; an empty
correct set scores 0; and on options `{A,B,C}` with correct `{A,B}`,
`"A"` scores `1/2`, `"A|B"` scores `1`, `"A|C"` scores `0`, `""`
scores `0`. -/
theorem mc_partial_credit (corr : List String) (ans : String) :
    (corrSet corr ≠ ∅ →
      (ans = "" → mc_grader ans corr = 0) ∧
      (¬ userSet ans ⊆ corrSet corr → mc_grader ans corr = 0) ∧
      (ans ≠ "" → userSet ans ⊆ corrSet corr →
        mc_grader ans corr
          = ((userSet ans).card : Rat) / ((corrSet corr).card : Rat))) ∧
    (corrSet corr = ∅ → mc_grader ans corr = 0) ∧
    mc_grader "A" ["A", "B"] = 1/2 ∧ mc_grader "A|B" ["A", "B"] = 1 ∧
    mc_grader "A|C" ["A", "B"] = 0 ∧ mc_grader "" ["A", "B"] = 0 := by
  refine ⟨fun hne => ⟨fun h0 => h0 ▸ mc_grader_empty_ans corr,
            fun hsub => mc_grader_wrong ans corr hsub,
            fun h0 hsub => mc_grader_sub ans corr h0 hsub hne⟩,
          fun hc => mc_grader_cempty ans corr hc,
          mc_grader_half, mc_grader_full, rfl, rfl⟩

/-- Closed instance of `mc_partial_credit` with its hypotheses
discharged at options `{A,B,C}`, correct `{A,B}`, answer `"A"`. -/
theorem mc_partial_credit_witness :
    mc_grader "A" ["A", "B"]
      = ((userSet "A").card : Rat) / ((corrSet ["A", "B"]).card : Rat) :=
  ((mc_partial_credit ["A", "B"] "A").1 (by decide)).2.2 (by decide) (by decide)

/-- C3: open-text grading returns 1 exactly on trimmed, lowercased
equality with the reference, 0 otherwise, and nothing else; with
reference `"Paris"`, answer `"  paris "` scores 1 and `"London"`
scores 0. -/
theorem open_grader_binary (ans corr : String) :
    (open_grader ans corr = 1 ↔ pyLower (pyStrip ans) = pyLower (pyStrip corr)) ∧
    (open_grader ans corr = 0 ↔ pyLower (pyStrip ans) ≠ pyLower (pyStrip corr)) ∧
    (open_grader ans corr = 0 ∨ open_grader ans corr = 1) ∧
    open_grader "  paris " "Paris" = 1 ∧ open_grader "London" "Paris" = 0 := by
  refine ⟨?_, ?_, ?_, rfl, rfl⟩ <;>
    · unfold open_grader
      by_cases h : pyLower (pyStrip ans) = pyLower (pyStrip corr) <;> simp [h]

/-- C5: grading is total (both graders are Lean functions, hence never
raise) and the fractional grade of any question on any raw answer lies
in `[0, 1]`; the division in `mc_grader` is reached only with a
non-empty correct set. -/
theorem grade_in_unit_interval (q : Question) (ans : String) :
    0 ≤ grade1 q ans ∧ grade1 q ans ≤ 1 := by
  have hmc : ∀ (a : String) (corr : List String),
      0 ≤ mc_grader a corr ∧ mc_grader a corr ≤ 1 := by
    intro a corr
    by_cases h0 : a = ""
    · subst h0; rw [mc_grader_empty_ans]; norm_num
    by_cases hsub : userSet a ⊆ corrSet corr
    · by_cases hc : corrSet corr = ∅
      · rw [mc_grader_cempty _ _ hc]; norm_num
      · rw [mc_grader_sub a corr h0 hsub hc]
        have hpos : 0 < (corrSet corr).card :=
          Finset.card_pos.mpr (Finset.nonempty_iff_ne_empty.mpr hc)
        have hle : (userSet a).card ≤ (corrSet corr).card :=
          Finset.card_le_card hsub
        refine ⟨by positivity, ?_⟩
        rw [div_le_one (by exact_mod_cast hpos)]
        exact_mod_cast hle
    · rw [mc_grader_wrong _ _ hsub]; norm_num
  unfold grade1
  split
  · exact hmc _ _
  · unfold open_grader
    split <;> norm_num

/-- C8 counterexample: against correct set `{A}`, the raw answer
`"A| "` grades 0 while `"A"` grades 1 — a whitespace-only segment is
kept (the `if a` filter runs before stripping) and contributes `""` to
the user-selection set, so the two do not grade the same. -/
theorem userSet_whitespace_counterexample :
    userSet "A| " = {"a", ""} ∧ userSet "A" = {"a"} ∧
    mc_grader "A| " ["A"] = 0 ∧ mc_grader "A" ["A"] = 1 ∧
    mc_grader "A| " ["A"] ≠ mc_grader "A" ["A"] := by
  have h1 : mc_grader "A" ["A"] = 1 := by
    show ((userSet "A").card : Rat) / ((corrSet ["A"]).card : Rat) = 1
    rw [show (userSet "A").card = 1 from by decide,
        show (corrSet ["A"]).card = 1 from by decide]
    norm_num
  refine ⟨by decide, by decide, rfl, h1, ?_⟩
  rw [h1, show mc_grader "A| " ["A"] = 0 from rfl]
  norm_num

/-- C8 amended: the user-selection set is obtained by splitting on
`|`, dropping segments that are empty **before** trimming, then
trimming and lowercasing the rest; a whitespace-only segment therefore
contributes the empty string to the set. -/
theorem userSet_characterization (ans x : String) :
    (x ∈ userSet ans ↔
      ∃ a, a ∈ pySplit ans '|' ∧ a ≠ "" ∧ pyLower (pyStrip a) = x) ∧
    (∀ a, a ∈ pySplit ans '|' → a ≠ "" → pyStrip a = "" →
      "" ∈ userSet ans) := by
  have hmem : ∀ y, y ∈ userSet ans ↔
      ∃ a, a ∈ pySplit ans '|' ∧ a ≠ "" ∧ pyLower (pyStrip a) = y := by
    intro y
    unfold userSet
    simp only [List.mem_toFinset, List.mem_map, List.mem_filter,
      decide_eq_true_eq, ne_eq]
    constructor
    · rintro ⟨a, ⟨ha, hne⟩, hav⟩
      exact ⟨a, ha, hne, hav⟩
    · rintro ⟨a, ha, hne, hav⟩
      exact ⟨a, ⟨ha, hne⟩, hav⟩
  refine ⟨hmem x, fun a ha hne hstrip => ?_⟩
  exact (hmem "").mpr ⟨a, ha, hne, by rw [hstrip]; rfl⟩

/-- Closed instance of `userSet_characterization` at the answer
`"A| "`: its whitespace-only second segment puts `""` in the set. -/
theorem userSet_characterization_witness : "" ∈ userSet "A| " :=
  (userSet_characterization "A| " "").2 " " (by decide) (by decide) (by decide)

/-- C2: when the field with `;` removed is all digits, the parser
resolves `CorrectAnswers` as 1-based indices into the options with
out-of-range indices silently discarded (`resolveIndicesSpec` restates
the spec's wording); otherwise as literal `;`-delimited labels, trimmed
and with empties dropped, independent of the options; and the round
trip `Options="Red;Green;Blue"`, `CorrectAnswers="1;3"` yields
`{"Red","Blue"}`. -/
theorem resolveCorrect_resolution (corr rawCorr : String) (opts : List String) :
    (pyIsDigit (removeChar corr ';') = true →
      resolveCorrect corr rawCorr opts = resolveIndicesSpec corr opts) ∧
    (pyIsDigit (removeChar corr ';') = false →
      resolveCorrect corr rawCorr opts = resolveLiteralSpec rawCorr ∧
      ∀ opts', resolveCorrect corr rawCorr opts
        = resolveCorrect corr rawCorr opts') ∧
    parseRow [("Typ", "mc"), ("Frage", "Q"),
              ("Antwortmöglichkeiten", "Red;Green;Blue"),
              ("Richtige Antworten", "1;3")]
      = Except.ok ⟨"Q", "mc", Correct.strs ["Red", "Blue"],
                   some ["Red", "Green", "Blue"], 1⟩ := by
  refine ⟨?_, ?_, by decide⟩
  · intro h
    unfold resolveCorrect resolveIndicesSpec
    rw [if_pos h]
    dsimp only
    simp only [List.filter_map, List.filterMap_map]
    congr 1
    · funext i
      simp only [Function.comp_apply]
      congr 1
      omega
    · apply List.filter_congr
      intro a _
      simp only [Function.comp_apply]
      exact decide_eq_decide.mpr (by omega)
  · intro h
    have hcond : ¬ (pyIsDigit (removeChar corr ';') = true) := by simp [h]
    exact ⟨by unfold resolveCorrect resolveLiteralSpec; rw [if_neg hcond],
           fun opts' => by unfold resolveCorrect; rw [if_neg hcond, if_neg hcond]⟩

/-- Closed instance of `resolveCorrect_resolution` at the digits field
`"1;3"` over options `Red;Green;Blue`. -/
theorem resolveCorrect_resolution_witness :
    resolveCorrect "1;3" "1;3" ["Red", "Green", "Blue"]
      = resolveIndicesSpec "1;3" ["Red", "Green", "Blue"] :=
  (resolveCorrect_resolution "1;3" "1;3" ["Red", "Green", "Blue"]).1 (by decide)

/-- C4: when any required column is missing after stripping the column
names, `load_questions` fails with the schema error naming exactly the
missing required columns (so no questions are produced), the `Gewicht`
(weight) column is not among the required ones, and when all required
columns are present the schema check passes whether or not `Gewicht`
is there. -/
theorem load_questions_schema (df : DataFrame) :
    ((∃ c, c ∈ requiredCols ∧ ¬ c ∈ df.columns.map pyStrip) →
      load_questions df = Except.error ("Fehlende Spalten: " ++
        String.intercalate ", "
          (requiredCols.filter (fun c => ¬ c ∈ df.columns.map pyStrip)))) ∧
    (¬ "Gewicht" ∈ requiredCols) ∧
    ((∀ c, c ∈ requiredCols → c ∈ df.columns.map pyStrip) →
      load_questions df = dfToQuestions df.rows) := by
  refine ⟨?_, by decide, ?_⟩
  · rintro ⟨c, hc, hmem⟩
    have hne : requiredCols.filter
        (fun c => ¬ c ∈ df.columns.map pyStrip) ≠ [] := by
      intro hnil
      rw [List.filter_eq_nil_iff] at hnil
      have := hnil c hc
      simp only [decide_not, Bool.not_eq_true', decide_eq_false_iff_not,
        not_not] at this
      exact hmem this
    unfold load_questions
    dsimp only
    rw [if_pos hne]
  · intro hall
    have hnil : requiredCols.filter
        (fun c => ¬ c ∈ df.columns.map pyStrip) = [] := by
      rw [List.filter_eq_nil_iff]
      intro a ha
      simp only [decide_not, Bool.not_eq_true', decide_eq_false_iff_not,
        not_not]
      exact hall a ha
    unfold load_questions
    dsimp only
    rw [if_neg (not_ne_iff.mpr hnil)]

/-- Closed instance of `load_questions_schema`: a frame without the
`Typ` column is refused with the message naming it, and a frame with
the four required columns but no `Gewicht` passes the schema check. -/
theorem load_questions_schema_witness :
    load_questions ⟨["Frage", "Antwortmöglichkeiten", "Richtige Antworten"], []⟩
      = Except.error ("Fehlende Spalten: " ++ String.intercalate ", "
          (requiredCols.filter (fun c =>
            ¬ c ∈ (["Frage", "Antwortmöglichkeiten",
                    "Richtige Antworten"] : List String).map pyStrip))) ∧
    load_questions ⟨["Frage", "Typ", "Antwortmöglichkeiten",
                     "Richtige Antworten"], []⟩
      = dfToQuestions [] :=
  ⟨(load_questions_schema
      ⟨["Frage", "Antwortmöglichkeiten", "Richtige Antworten"], []⟩).1
      ⟨"Typ", by decide, by decide⟩,
   (load_questions_schema
      ⟨["Frage", "Typ", "Antwortmöglichkeiten", "Richtige Antworten"], []⟩).2.2
      (by decide)⟩

lemma mc_grader_nil (ans : String) : mc_grader ans [] = 0 :=
  mc_grader_cempty ans [] (by decide)

lemma resolveCorrect_digits_nil (corr rawCorr : String)
    (h : pyIsDigit (removeChar corr ';') = true) :
    resolveCorrect corr rawCorr [] = [] := by
  unfold resolveCorrect
  rw [if_pos h]
  dsimp only
  rw [List.filter_eq_nil_iff.mpr ?_, List.filterMap_nil]
  intro a _
  simp only [decide_eq_true_eq, List.length_nil, Nat.cast_zero, not_and]
  omega

/-- C7 counterexample: a multiple-choice row with an empty `Options`
field but the literal `CorrectAnswers` field `"Red"` parses to a
question with zero options yet a **non-empty** correct-answer set
`{"Red"}` (the literal branch is not validated against the options),
and the non-empty submission `"Red"` then grades 1, not 0. -/
theorem empty_options_counterexample :
    parseRow [("Typ", "mc"), ("Frage", "Q3"), ("Antwortmöglichkeiten", ""),
              ("Richtige Antworten", "Red")]
      = Except.ok ⟨"Q3", "mc", Correct.strs ["Red"], some [], 1⟩ ∧
    Correct.strs ["Red"] ≠ Correct.strs [] ∧
    mc_grader "Red" ["Red"] = 1 := by
  refine ⟨by decide, by decide, ?_⟩
  show ((userSet "Red").card : Rat) / ((corrSet ["Red"]).card : Rat) = 1
  rw [show (userSet "Red").card = 1 from by decide,
      show (corrSet ["Red"]).card = 1 from by decide]
  norm_num

/-- C7 amended: a multiple-choice row with an empty `Options` field
always parses to zero options; when additionally the `CorrectAnswers`
field resolves through the index branch (all digits once `;` is
removed), the correct-answer set is empty and every submitted answer —
in particular every non-empty one — grades 0.  (A literal, non-numeric
`CorrectAnswers` field survives unvalidated and can grade non-zero, as
the counterexample shows.) -/
theorem empty_options_amended (row : Row) (q : Question)
    (hopts : getCell row "Antwortmöglichkeiten" = "")
    (htyp : pyLower (pyStrip (getCell row "Typ")) = "mc")
    (hok : parseRow row = Except.ok q) :
    q.options = some [] ∧
    (pyIsDigit (removeChar (pyStrip (getCell row "Richtige Antworten")) ';')
        = true →
      q.correct = Correct.strs [] ∧ ∀ ans, grade1 q ans = 0) := by
  unfold parseRow at hok
  cases hw : (match row.lookup "Gewicht" with
              | none => some (1 : Rat)
              | some s => pyFloat s) with
  | none => rw [hw] at hok; cases hok
  | some w =>
    rw [hw] at hok
    dsimp only at hok
    rw [htyp, if_pos rfl, hopts,
        show parseOptions "" = [] from rfl] at hok
    cases hok
    refine ⟨rfl, fun hdig => ?_⟩
    refine ⟨?_, fun ans => ?_⟩
    · show Correct.strs (resolveCorrect _ _ []) = Correct.strs []
      rw [resolveCorrect_digits_nil _ _ hdig]
    · show mc_grader ans (correctAsSeq (Correct.strs (resolveCorrect _ _ []))) = 0
      rw [resolveCorrect_digits_nil _ _ hdig]
      exact mc_grader_nil ans

/-- Closed instance of `empty_options_amended` at a concrete row with
empty options and the digits field `"1"`. -/
theorem empty_options_amended_witness :
    (⟨"W", "mc", Correct.strs [], some [], 1⟩ : Question).options = some [] ∧
    ((⟨"W", "mc", Correct.strs [], some [], 1⟩ : Question).correct
        = Correct.strs [] ∧
      ∀ ans, grade1 ⟨"W", "mc", Correct.strs [], some [], 1⟩ ans = 0) :=
  ⟨(empty_options_amended
      [("Typ", "mc"), ("Frage", "W"), ("Antwortmöglichkeiten", ""),
       ("Richtige Antworten", "1")]
      ⟨"W", "mc", Correct.strs [], some [], 1⟩
      (by decide) (by decide) (by decide)).1,
   (empty_options_amended
      [("Typ", "mc"), ("Frage", "W"), ("Antwortmöglichkeiten", ""),
       ("Richtige Antworten", "1")]
      ⟨"W", "mc", Correct.strs [], some [], 1⟩
      (by decide) (by decide) (by decide)).2 (by decide)⟩

lemma dictInsert_fresh (d : List (String × Rat)) (k : String) (v : Rat)
    (h : ∀ p ∈ d, p.1 ≠ k) : dictInsert d k v = d ++ [(k, v)] := by
  unfold dictInsert
  rw [if_neg]
  simp only [List.any_eq_true, decide_eq_true_eq, not_exists, not_and]
  exact h

lemma scoresDict_go (answers : String → String) (qs : List Question) :
    ∀ d : List (String × Rat),
    (qs.map Question.prompt).Nodup →
    (∀ q ∈ qs, ∀ p ∈ d, p.1 ≠ q.prompt) →
    List.foldl
      (fun d q => dictInsert d q.prompt (q.weight * grade1 q (answers q.prompt)))
      d qs
      = d ++ qs.map (fun q => (q.prompt, q.weight * grade1 q (answers q.prompt))) := by
  induction qs with
  | nil => intro d _ _; simp
  | cons q qs ih =>
    intro d hnd hdisj
    have hnd' : (q.prompt ∉ qs.map Question.prompt)
        ∧ (qs.map Question.prompt).Nodup := by
      rw [List.map_cons, List.nodup_cons] at hnd
      exact hnd
    simp only [List.foldl_cons, List.map_cons]
    rw [dictInsert_fresh d q.prompt _
        (fun p hp => hdisj q (List.mem_cons_self q qs) p hp)]
    rw [ih (d ++ [(q.prompt, q.weight * grade1 q (answers q.prompt))])
        hnd'.2 ?_]
    · simp
    · intro q' hq' p hp
      rcases List.mem_append.mp hp with hpd | hps
      · exact hdisj q' (List.mem_cons_of_mem _ hq') p hpd
      · have hp1 : p.1 = q.prompt := by
          rcases List.mem_singleton.mp hps with rfl; rfl
        rw [hp1]
        intro heq
        apply hnd'.1
        rw [heq]
        exact List.mem_map_of_mem Question.prompt hq'

lemma lookup_map_prompt (w : Question → Rat) (qs : List Question) :
    (qs.map Question.prompt).Nodup →
    ∀ q ∈ qs, (qs.map (fun q => (q.prompt, w q))).lookup q.prompt
      = some (w q) := by
  induction qs with
  | nil => intro _ q hq; cases hq
  | cons a qs ih =>
    intro hnd q hq
    have hnd' : (a.prompt ∉ qs.map Question.prompt)
        ∧ (qs.map Question.prompt).Nodup := by
      rw [List.map_cons, List.nodup_cons] at hnd
      exact hnd
    rcases List.mem_cons.mp hq with rfl | hq'
    · simp [List.lookup]
    · have hne : q.prompt ≠ a.prompt := by
        intro heq
        apply hnd'.1
        rw [← heq]
        exact List.mem_map_of_mem Question.prompt hq'
      simp only [List.map_cons, List.lookup,
        beq_eq_false_iff_ne.mpr hne]
      exact ih hnd'.2 q hq'

/-- C6: with distinct prompts (the spec's data-model invariant), the
`scores` dict holds, for each question, `weight × grade` under the
question's prompt, and the stored total is the sum of these weighted
scores over all questions, with no normalization. -/
theorem weighted_total (questions : List Question) (answers : String → String)
    (hnd : (questions.map Question.prompt).Nodup) :
    (∀ q ∈ questions, (scoresDict questions answers).lookup q.prompt
        = some (q.weight * grade1 q (answers q.prompt))) ∧
    totalScore questions answers
      = (questions.map (fun q => q.weight * grade1 q (answers q.prompt))).sum := by
  have hgo := scoresDict_go answers questions [] hnd (by simp)
  constructor
  · intro q hq
    unfold scoresDict
    rw [hgo, List.nil_append]
    exact lookup_map_prompt
      (fun q => q.weight * grade1 q (answers q.prompt)) questions hnd q hq
  · unfold totalScore scoresDict
    rw [hgo, List.nil_append, List.map_map]
    rfl

/-- Closed instance of `weighted_total`: two questions with weights 1
and 2 grading 1/2 and 1 give total `1 × 1/2 + 2 × 1 = 5/2`. -/
theorem weighted_total_witness :
    totalScore
      [⟨"P1", "mc", Correct.strs ["A", "B"], some ["A", "B", "C"], 1⟩,
       ⟨"P2", "open", Correct.str "Paris", none, 2⟩]
      (fun p => if p = "P1" then "A" else "Paris") = 5/2 := by
  rw [(weighted_total
      [⟨"P1", "mc", Correct.strs ["A", "B"], some ["A", "B", "C"], 1⟩,
       ⟨"P2", "open", Correct.str "Paris", none, 2⟩]
      (fun p => if p = "P1" then "A" else "Paris") (by decide)).2]
  show 1 * grade1 ⟨"P1", "mc", Correct.strs ["A", "B"], some ["A", "B", "C"], 1⟩ "A"
      + (2 * grade1 ⟨"P2", "open", Correct.str "Paris", none, 2⟩ "Paris" + 0) = 5/2
  have g1 : grade1 ⟨"P1", "mc", Correct.strs ["A", "B"], some ["A", "B", "C"], 1⟩
      "A" = 1/2 := by
    show mc_grader "A" ["A", "B"] = 1/2
    exact mc_grader_half
  have g2 : grade1 ⟨"P2", "open", Correct.str "Paris", none, 2⟩ "Paris" = 1 := rfl
  rw [g1, g2]
  norm_num

/-- C9: parsing is a pure function (equal inputs give equal outputs —
no hidden mutable state in the embedding), and it is order-preserving:
on success there are as many questions as rows and the `i`-th question
is the parse of the `i`-th row. -/
theorem parse_deterministic_ordered (rows rows' : List Row)
    (qs : List Question) :
    (rows = rows' → dfToQuestions rows = dfToQuestions rows') ∧
    (dfToQuestions rows = Except.ok qs →
      qs.length = rows.length ∧
      ∀ i : Nat, qs.get? i
        = (rows.get? i).bind (fun r => (parseRow r).toOption)) := by
  refine ⟨fun h => by rw [h], ?_⟩
  induction rows generalizing qs with
  | nil =>
    intro h
    unfold dfToQuestions at h
    cases h
    exact ⟨rfl, fun i => by simp⟩
  | cons r rs ih =>
    intro h
    unfold dfToQuestions at h
    cases hr : parseRow r with
    | error e => rw [hr] at h; cases h
    | ok q =>
      rw [hr] at h
      cases hrs : dfToQuestions rs with
      | error e => rw [hrs] at h; cases h
      | ok qs' =>
        rw [hrs] at h
        cases h
        obtain ⟨hlen, hidx⟩ := ih qs' hrs
        refine ⟨by simp [hlen], fun i => ?_⟩
        cases i with
        | zero => simp [hr, Except.toOption]
        | succ n => simpa using hidx n

/-- Closed instance of `parse_deterministic_ordered` on a one-row
table. -/
theorem parse_deterministic_ordered_witness :
    dfToQuestions [[("Typ", "open"), ("Frage", "F"),
        ("Antwortmöglichkeiten", ""), ("Richtige Antworten", "x")]]
      = dfToQuestions [[("Typ", "open"), ("Frage", "F"),
          ("Antwortmöglichkeiten", ""), ("Richtige Antworten", "x")]] ∧
    ([⟨"F", "open", Correct.str "x", none, 1⟩] : List Question).get? 0
      = (([[("Typ", "open"), ("Frage", "F"), ("Antwortmöglichkeiten", ""),
            ("Richtige Antworten", "x")]] : List Row).get? 0).bind
          (fun r => (parseRow r).toOption) :=
  ⟨(parse_deterministic_ordered
      [[("Typ", "open"), ("Frage", "F"), ("Antwortmöglichkeiten", ""),
        ("Richtige Antworten", "x")]]
      [[("Typ", "open"), ("Frage", "F"), ("Antwortmöglichkeiten", ""),
        ("Richtige Antworten", "x")]]
      [⟨"F", "open", Correct.str "x", none, 1⟩]).1 rfl,
   ((parse_deterministic_ordered
      [[("Typ", "open"), ("Frage", "F"), ("Antwortmöglichkeiten", ""),
        ("Richtige Antworten", "x")]]
      [[("Typ", "open"), ("Frage", "F"), ("Antwortmöglichkeiten", ""),
        ("Richtige Antworten", "x")]]
      [⟨"F", "open", Correct.str "x", none, 1⟩]).2 (by decide)).2 0⟩

lemma dfToQuestions_error_of_mem (rows : List Row) (row : Row) (e : String)
    (hmem : row ∈ rows) (herr : parseRow row = Except.error e) :
    ∃ e', dfToQuestions rows = Except.error e' := by
  induction rows with
  | nil => cases hmem
  | cons r rs ih =>
    unfold dfToQuestions
    cases hr : parseRow r with
    | error e'' => exact ⟨e'', rfl⟩
    | ok q =>
      rcases List.mem_cons.mp hmem with rfl | hmem'
      · rw [hr] at herr; cases herr
      · obtain ⟨e', he'⟩ := ih hmem'
        rw [he']
        exact ⟨e', rfl⟩

/-- C10: a present `Gewicht` (weight) cell whose string does not parse
as a float makes the row raise (the Python `ValueError` of `float`),
any such row anywhere in the table aborts the whole parse with no
questions produced, and the default weight 1.0 applies exactly when
the `Gewicht` column is absent from the row. -/
theorem weight_parse_strict (row : Row) (s : String) (rows : List Row)
    (q : Question) :
    (row.lookup "Gewicht" = some s → pyFloat s = none →
      parseRow row = Except.error "could not convert string to float") ∧
    (row ∈ rows →
      parseRow row = Except.error "could not convert string to float" →
      ∃ e, dfToQuestions rows = Except.error e) ∧
    (row.lookup "Gewicht" = none → parseRow row = Except.ok q →
      q.weight = 1) := by
  refine ⟨?_, fun hm he => dfToQuestions_error_of_mem rows row _ hm he, ?_⟩
  · intro hlk hf
    unfold parseRow
    rw [hlk]
    dsimp only
    rw [hf]
  · intro hlk hok
    unfold parseRow at hok
    rw [hlk] at hok
    dsimp only at hok
    split at hok <;> · cases hok; rfl

/-- Closed instance of `weight_parse_strict`: the weight cell `"abc"`
errors and aborts, and a row without a `Gewicht` key gets weight 1. -/
theorem weight_parse_strict_witness :
    parseRow [("Typ", "open"), ("Frage", "F"), ("Richtige Antworten", "x"),
              ("Gewicht", "abc")]
      = Except.error "could not convert string to float" ∧
    (∃ e, dfToQuestions [[("Typ", "open"), ("Frage", "F"),
        ("Richtige Antworten", "x"), ("Gewicht", "abc")]]
      = Except.error e) ∧
    (⟨"F", "open", Correct.str "x", none, 1⟩ : Question).weight = 1 :=
  ⟨(weight_parse_strict
      [("Typ", "open"), ("Frage", "F"), ("Richtige Antworten", "x"),
       ("Gewicht", "abc")] "abc" [] ⟨"F", "open", Correct.str "x", none, 1⟩).1
      (by decide) (by decide),
   (weight_parse_strict
      [("Typ", "open"), ("Frage", "F"), ("Richtige Antworten", "x"),
       ("Gewicht", "abc")] "abc"
      [[("Typ", "open"), ("Frage", "F"), ("Richtige Antworten", "x"),
        ("Gewicht", "abc")]] ⟨"F", "open", Correct.str "x", none, 1⟩).2.1
      (by decide) (by decide),
   (weight_parse_strict
      [("Typ", "open"), ("Frage", "F"), ("Richtige Antworten", "x")] "abc" []
      ⟨"F", "open", Correct.str "x", none, 1⟩).2.2 (by decide) (by decide)⟩

end QuizApp
